import Mathlib

/-!
Verification of the unicast receiver / transport layer.

This file shallowly embeds the media-receiver core of the repository:

* `MpvReceiver` (src/Extensions/MediaReceivers/Mpv/MpvReceiver.ts):
  the operations `play`, `stop`, `status`, `connect` and `callCommand`.
* `KodiConnection` (the transport client with retry and fallback policy).
* `KodiApi.query` (the JSON-RPC reply normalization layer).

Two collaborators of `MpvReceiver` are declared but their implementation
files are not part of the sources at hand: `MediaSessionsManager`
(the session registry) and `MpvConnection` (the MPV transport).  Those
two are modelled from the specification (sections 4.2 and 4.3) and each
such definition carries a doc comment starting with "Modelled from the
spec".  Everything else is translated directly from the source files.
-/

namespace Unicast

/-! ## Media stream and session data model -/

/-- The type tag of a media stream (`MediaStreamType` in the source);
only the tags relevant to the receiver logic are modelled. -/
inductive MStream
| video
| audio
| subtitles
deriving DecidableEq, Repr

/-- The data a session id resolves to in the session registry:
its media streams and the originating media record (abstracted to an
identifier).  Play options are not inspected by the embedded claims and
are omitted. -/
structure SessionData where
  streams : List MStream
  record : Nat
deriving DecidableEq, Repr

/-- The playback information the MPV transport reports for the device
(the `status` object read by `MpvReceiver.status`).  `path` is the loaded
file path; the receiver treats a missing object or missing path as
"nothing playing", which the model folds into an `Option Playback`. -/
structure Playback where
  path : String
  pause : Bool
  position : Int
  duration : Int
  volume : Int
  mute : Bool
  subScale : Int
deriving DecidableEq, Repr

/-- The observable state of the device the receiver controls:
whether the device is reachable over the transport and what it is
currently playing (none when stopped). -/
structure DeviceState where
  reachable : Bool
  playing : Option Playback
deriving DecidableEq, Repr

/-- Observable actions performed by receiver operations, recorded in
order: transport-level calls, registry releases and emitted lifecycle
events. -/
inductive Action
| transportStop (sid : String) (ok : Bool)
| registryRelease (sid : String)
| transportPlay (sid : String)
| transportStopCmd
| transportStatus
| emitEv (name : String) (sid : Option String)
deriving DecidableEq, Repr

/-- The full state a `MpvReceiver` instance operates on: the current
session pointer, the session registry bindings, the device, the history
table (used by `status` for the session field) and the recorded trace of
actions. -/
structure MpvState where
  current : Option String
  registry : List (String × SessionData)
  device : DeviceState
  history : List (String × Nat)
  trace : List Action
deriving DecidableEq, Repr

/-! ## Session registry (spec-modelled) -/

/-- Removes the binding of a session id from the registry list. -/
def removeSession (sid : String) (l : List (String × SessionData)) : List (String × SessionData) :=
  l.filter (fun p => p.fst != sid)

/-- Modelled from the spec: `MediaSessionsManager.release` is not under
the available sources.  Per sections 4.1 and 4.3 of the spec, releasing a
bound session attempts a transport-level stop of it (whose failure is
swallowed: the registry release always happens) and removes the binding;
releasing an unknown or already-released id is a no-op, not an error. -/
def sessionsRelease (stopOk : Bool) (sid : String) (st : MpvState) : MpvState :=
  if (st.registry.lookup sid).isSome then
    { st with
      registry := removeSession sid st.registry,
      trace := st.trace ++ [Action.transportStop sid stopOk, Action.registryRelease sid] }
  else
    st

/-- Release lifted to an optional session id (the source calls
`this.sessions.release(this.sessions.current)` where the current pointer
may be null; a null id resolves to no binding, hence a no-op). -/
def sessionsReleaseOpt (stopOk : Bool) (sid : Option String) (st : MpvState) : MpvState :=
  match sid with
  | none => st
  | some s => sessionsRelease stopOk s st

/-! ## Receiver status model -/

/-- Lifecycle states of `ReceiverStatusState` in
src/Receivers/BaseReceiver/IMediaReceiver.ts. -/
inductive RState
| stopped
| playing
| paused
| buffering
deriving DecidableEq, Repr

/-- Time status of the canonical receiver status. -/
structure RTime where
  duration : Int
  current : Int
  speed : Int
deriving DecidableEq, Repr

/-- Volume status of the canonical receiver status. -/
structure RVolume where
  level : Int
  muted : Bool
deriving DecidableEq, Repr

/-- Media section of the canonical receiver status: time, the resolved
media record and the history record looked up for the session (both
absent in the stopped snapshot).  The timestamp and the constant
transcoding and options fields of the source object are omitted. -/
structure RMedia where
  time : RTime
  record : Option Nat
  session : Option Nat
deriving DecidableEq, Repr

/-- The canonical receiver status snapshot produced by
`MpvReceiver.status`. -/
structure ReceiverStatus where
  state : RState
  media : RMedia
  volume : RVolume
  subtitlesStyle : Option Int
deriving DecidableEq, Repr

/-- The canonical "Stopped" snapshot returned by `MpvReceiver.status`
when the transport reports no playing media (MpvReceiver.ts lines
195-209): zeroed time, null record and session, volume level 1 unmuted,
null subtitles style. -/
def stoppedSnapshot : ReceiverStatus :=
  { state := RState.stopped,
    media := { time := { duration := 0, current := 0, speed := 0 },
               record := none,
               session := none },
    volume := { level := 1, muted := false },
    subtitlesStyle := none }

/-- Errors that `MpvReceiver.status` can propagate. -/
inductive StatusErr
| transportUnreachable
| sessionNotFound
deriving DecidableEq, Repr

/-- Modelled from the spec: `MpvConnection.status` is not under the
available sources.  Per section 4.2 the transport raises connectivity
errors to the caller once its bounded retries are exhausted (an
unreachable device surfaces an error), and otherwise reports the
playback state of the device, null when nothing is playing (as the Kodi
transport worked example does). -/
def connectionStatus (d : DeviceState) : Except StatusErr (Option Playback) :=
  if d.reachable then Except.ok d.playing else Except.error StatusErr.transportUnreachable

/-- `MpvReceiver.status` (MpvReceiver.ts lines 192-236): queries the
transport; a missing status or missing path yields the canonical stopped
snapshot; otherwise the current session is resolved through the registry
(`sessions.get`, which fails with a session-not-found error on an
unknown or null id per spec section 4.3) and the device reply is
normalized.  The transport call is recorded in the trace. -/
def statusAct (st : MpvState) : MpvState × Except StatusErr ReceiverStatus :=
  let st := { st with trace := st.trace ++ [Action.transportStatus] }
  match connectionStatus st.device with
  | Except.error e => (st, Except.error e)
  | Except.ok none => (st, Except.ok stoppedSnapshot)
  | Except.ok (some pb) =>
    match st.current with
    | none => (st, Except.error StatusErr.sessionNotFound)
    | some s =>
      match st.registry.lookup s with
      | none => (st, Except.error StatusErr.sessionNotFound)
      | some data =>
        (st, Except.ok
          { state := if pb.pause then RState.paused else RState.playing,
            media := { time := { duration := pb.duration,
                                 current := pb.position,
                                 speed := if pb.pause then 0 else 1 },
                       record := some data.record,
                       session := st.history.lookup s },
            volume := { level := pb.volume, muted := pb.mute },
            subtitlesStyle := some pb.subScale })

/-! ## MpvReceiver.play -/

/-- Errors raised by `MpvReceiver.play`. -/
inductive PlayErr
| sessionNotFound
| noVideoStream
| transportPlayFailed
| emitFailed
| statusFailed (e : StatusErr)
deriving DecidableEq, Repr

/-- Outcomes of the effectful steps taken during a `play` call:
whether the transport-level stop attempted while releasing the displaced
session succeeds, whether the transport play command succeeds, whether
the play event listeners run without throwing, and the outcome of the
stop attempted by the release in the error-recovery path. -/
structure PlayOracle where
  releaseStopOk : Bool
  playOk : Bool
  emitOk : Bool
  catchReleaseStopOk : Bool

/-- The playback the device reports after a successful transport play
command for a session (the loaded path is the generated stream URL of
the session). -/
def startedPlayback (id : String) : Playback :=
  { path := id, pause := false, position := 0, duration := 0,
    volume := 100, mute := false, subScale := 1 }

/-- The try-block of `MpvReceiver.play` (MpvReceiver.ts lines 123-146):
fail when no video stream exists; release a different current session;
issue the transport play command; optimistically record the new session
as current; emit the play event.  Returns the state together with the
error when one of the steps failed. -/
def playBody (o : PlayOracle) (st : MpvState) (id : String) (data : SessionData) :
    MpvState × Option PlayErr :=
  if (data.streams.find? (fun s => s == MStream.video)).isNone then
    (st, some PlayErr.noVideoStream)
  else
    let st :=
      if st.current != none && st.current != some id then
        sessionsReleaseOpt o.releaseStopOk st.current st
      else st
    let st := { st with trace := st.trace ++ [Action.transportPlay id] }
    if !o.playOk then
      (st, some PlayErr.transportPlayFailed)
    else
      let st := { st with device := { reachable := true, playing := some (startedPlayback id) } }
      let st := { st with current := some id }
      let st := { st with trace := st.trace ++ [Action.emitEv "play" (some id)] }
      if !o.emitOk then (st, some PlayErr.emitFailed) else (st, none)

/-- `MpvReceiver.play` (MpvReceiver.ts lines 113-156): resolves the
session through the registry (throwing before the try-block when the id
is unknown), runs the try-block, and on any failure inside it releases
the new session, clears the current pointer when it points at the new
session, and re-raises; on success returns a fresh status (outside the
try-block, so a status failure is re-raised without the cleanup). -/
def play (o : PlayOracle) (st : MpvState) (id : String) :
    MpvState × Except PlayErr ReceiverStatus :=
  match st.registry.lookup id with
  | none => (st, Except.error PlayErr.sessionNotFound)
  | some data =>
    match playBody o st id data with
    | (st1, some e) =>
      let st2 := sessionsRelease o.catchReleaseStopOk id st1
      let st3 := if st2.current == some id then { st2 with current := none } else st2
      (st3, Except.error e)
    | (st1, none) =>
      match statusAct st1 with
      | (st2, Except.ok s) => (st2, Except.ok s)
      | (st2, Except.error e) => (st2, Except.error (PlayErr.statusFailed e))

/-! ## MpvReceiver.stop -/

/-- Errors raised by `MpvReceiver.stop`. -/
inductive StopErr
| transportFailed
| emitFailed
| statusFailed (e : StatusErr)
deriving DecidableEq, Repr

/-- Outcomes of the effectful steps of a `stop` call: the outcome of the
transport-level stop attempted by the registry release, and whether the
stop event listeners run without throwing. -/
structure StopOracle where
  releaseStopOk : Bool
  emitOk : Bool

/-- `MpvReceiver.stop` (MpvReceiver.ts lines 178-190): issue the
transport stop command (modelled from the spec for the missing
`MpvConnection`: it fails when the device is unreachable and otherwise
halts playback), release the current session from the registry, clear
the current pointer, emit the stop event carrying the affected session
id, and return a fresh status. -/
def stop (o : StopOracle) (st : MpvState) : MpvState × Except StopErr ReceiverStatus :=
  if !st.device.reachable then
    (st, Except.error StopErr.transportFailed)
  else
    let st := { st with
      device := { st.device with playing := none },
      trace := st.trace ++ [Action.transportStopCmd] }
    let st := sessionsReleaseOpt o.releaseStopOk st.current st
    let id := st.current
    let st := { st with current := none }
    let st := { st with trace := st.trace ++ [Action.emitEv "stop" id] }
    if !o.emitOk then
      (st, Except.error StopErr.emitFailed)
    else
      match statusAct st with
      | (st2, Except.ok s) => (st2, Except.ok s)
      | (st2, Except.error e) => (st2, Except.error (StopErr.statusFailed e))

/-! ## MpvReceiver.connect -/

/-- Modelled from the spec: the connection state of the missing
`MpvConnection`: its connected flag (whether a client object is held)
and a counter of the open attempts made on it.  Opening only constructs
the client (as the Kodi transport worked example does) and cannot
fail. -/
structure MpvConnectionState where
  connected : Bool
  openCalls : Nat
deriving DecidableEq, Repr

/-- `MpvReceiver.connect` (MpvReceiver.ts lines 70-77): when the
connection reports connected, the transport open is awaited; the call
always resolves to true. -/
def mpvConnect (c : MpvConnectionState) : Bool × MpvConnectionState :=
  if c.connected then
    (true, { c with openCalls := c.openCalls + 1 })
  else
    (true, c)

/-! ## MpvReceiver.callCommand -/

/-- A receiver object as seen by the dynamic dispatch of `callCommand`:
its callable members (methods, each a function from the argument list to
a result) and the names of its non-callable members (data fields such as
`address` or `port`). -/
structure ReceiverObject where
  methods : List (String × (List Nat → Nat))
  fieldNames : List String

/-- Whether a name is a property of the receiver object, callable or
not: the JavaScript `commandName in this` check. -/
def memberOf (r : ReceiverObject) (name : String) : Bool :=
  (r.methods.lookup name).isSome || r.fieldNames.contains name

/-- Outcomes of a `callCommand` invocation. -/
inductive CommandOutcome
| ok (v : Nat)
| invalidArgumentError
| typeErrorNotFunction
deriving DecidableEq, Repr

/-- `MpvReceiver.callCommand` (MpvReceiver.ts lines 272-278): when the
name is a property of the receiver (`commandName in this`), the property
is invoked with the arguments — a non-callable property makes that
invocation fail with a TypeError; when the name is not a property at
all, an `InvalidArgumentError` is thrown. -/
def callCommand (r : ReceiverObject) (name : String) (args : List Nat) : CommandOutcome :=
  if memberOf r name then
    match r.methods.lookup name with
    | some f => CommandOutcome.ok (f args)
    | none => CommandOutcome.typeErrorNotFunction
  else
    CommandOutcome.invalidArgumentError

/-- The method names defined on `MpvReceiver` (its own source plus the
operations declared by `IMediaReceiver`). -/
def mpvMethodNames : List String :=
  [ "connect", "disconnect", "reconnect", "turnoff", "getStreamUrl",
    "play", "pause", "resume", "stop", "status", "seek", "seekTo",
    "mute", "unmute", "setVolume", "callCommand", "changeSubtitles",
    "changeSubtitlesSize", "changeSubtitlesStyle", "cycleSubtitlesStyle",
    "toJSON" ]

/-- The non-callable properties present on a `MpvReceiver` instance:
the fields declared in its own source (`type`, `address`, `port`,
`connection`, `instance`, `sender`, `logger`, the getter `connected`)
and the base fields declared by `IMediaReceiver` (`name`, `server`,
`sessions`). -/
def mpvFieldNames : List String :=
  [ "type", "address", "port", "connection", "instance", "sender",
    "logger", "connected", "name", "server", "sessions" ]

/-- The receiver operations of the uniform contract (spec section 4.1):
the set of recognized receiver operations `callCommand` is specified to
dispatch to. -/
def recognizedOps : List String :=
  [ "connect", "disconnect", "reconnect", "play", "pause", "resume",
    "stop", "status", "seek", "seekTo", "setVolume", "mute", "unmute",
    "callCommand", "toJSON" ]

/-- A concrete `MpvReceiver` object for evaluation: every method is
given an arbitrary concrete implementation (the dispatch logic never
inspects the results). -/
def mpvReceiverObject : ReceiverObject :=
  { methods := mpvMethodNames.map (fun n => (n, fun args => args.length)),
    fieldNames := mpvFieldNames }

/-! ## KodiConnection: transport client with retry and fallback -/

/-- The outcome the wire produces for one request attempt: a successful
result value, or an error carrying the code (such as ECONNREFUSED) and
message fields the retry policy inspects. -/
inductive ReqOutcome
| ok (v : Nat)
| err (code : String) (msg : String)
deriving DecidableEq, Repr

/-- The mutable state of a `KodiConnection`: the connected flag (whether
a client object is held), the using-fallback flag, the failed-attempt
counter, whether a fallback address is configured, the number of open
calls made, and the record of request attempts (command, whether the
fallback address was active, outcome). -/
structure KodiState where
  connected : Bool
  usingFallback : Bool
  failedAttempts : Nat
  hasFallback : Bool
  opens : Nat
  attempts : List (String × Bool × ReqOutcome)
deriving DecidableEq, Repr

/-- Whether an error is connectivity-shaped: the source checks
`err.code == ECONNREFUSED || err.code == ETIMEDOUT`. -/
def isConnectivity (e : ReqOutcome) : Bool :=
  match e with
  | ReqOutcome.ok _ => false
  | ReqOutcome.err code _ => code == "ECONNREFUSED" || code == "ETIMEDOUT"

/-- Whether one character list occurs at the head of another. -/
def listBeginsWith : List Char → List Char → Bool
| [], _ => true
| _ :: _, [] => false
| n :: ns, h :: hs => n == h && listBeginsWith ns hs

/-- Whether one character list occurs contiguously inside another. -/
def listContainsSub (needle : List Char) : List Char → Bool
| [] => listBeginsWith needle []
| h :: hs => listBeginsWith needle (h :: hs) || listContainsSub needle hs

/-- The JavaScript `String.prototype.includes` check on strings. -/
def msgIncludes (needle msg : String) : Bool :=
  listContainsSub needle.data msg.data

/-- Whether the error message contains the transport-specific
"socket not ready" marker (`err.message.includes(...)` in the source). -/
def isNotReadyMsg (e : ReqOutcome) : Bool :=
  match e with
  | ReqOutcome.ok _ => false
  | ReqOutcome.err _ msg => msgIncludes "socket not ready" msg

/-- `KodiConnection.useFallback` (part_005 lines 81-95): for a
connectivity-shaped error, increment the failed-attempt counter; when
the counter exceeds 1 or no fallback is configured, report no retry;
otherwise toggle the active address between primary and fallback and
report a retry.  Non-connectivity errors never retry here. -/
def useFallback (st : KodiState) (e : ReqOutcome) : Bool × KodiState :=
  if isConnectivity e then
    let st := { st with failedAttempts := st.failedAttempts + 1 }
    if st.failedAttempts > 1 || !st.hasFallback then
      (false, st)
    else
      (true, { st with usingFallback := !st.usingFallback })
  else
    (false, st)

/-- Results of a `KodiConnection.call`: a value, a raised (wrapped)
error, exhaustion of the recursion fuel, or exhaustion of the supplied
outcome trace (meaning the code demanded one more request attempt than
the trace provides). -/
inductive CallResult
| ok (v : Nat) (st : KodiState)
| raised (code : String) (msg : String) (st : KodiState)
| outOfFuel (st : KodiState)
| outOfTrace (st : KodiState)
deriving DecidableEq, Repr

/-- `KodiConnection.call` (part_005 lines 107-153), with explicit fuel
for the recursive retries and the wire behavior supplied as a trace of
per-attempt outcomes.  While not connected the client is opened —
`open` only constructs the jayson HTTP client, performs no network
input/output and hence cannot fail, so the catch branch of the while
loop is unreachable and a successful open resets the failed-attempt
counter to 0.  Then the request is issued: on success the counter is
reset and the result returned; on a connectivity-shaped error the
fallback policy may toggle the address, close and retry; on a
"socket not ready" error the connection is closed and the same call
retried; any other error resets the counter and is wrapped (with the
address, command and underlying message) and raised. -/
def call : Nat → KodiState → String → List ReqOutcome → CallResult
| 0, st, _, _ => CallResult.outOfFuel st
| Nat.succ fuel, st, cmd, trace =>
  let st :=
    if st.connected then st
    else { st with connected := true, failedAttempts := 0, opens := st.opens + 1 }
  match trace with
  | [] => CallResult.outOfTrace st
  | e :: rest =>
    let st := { st with attempts := st.attempts ++ [(cmd, st.usingFallback, e)] }
    match e with
    | ReqOutcome.ok v => CallResult.ok v { st with failedAttempts := 0 }
    | ReqOutcome.err code msg =>
      let r := useFallback st (ReqOutcome.err code msg)
      if r.fst then
        call fuel { r.snd with connected := false } cmd rest
      else if isNotReadyMsg (ReqOutcome.err code msg) then
        call fuel { r.snd with connected := false } cmd rest
      else
        CallResult.raised code msg { r.snd with failedAttempts := 0 }

/-- A fresh, not yet connected `KodiConnection` state with a configured
fallback address. -/
def kodiFresh (hasFallback : Bool) : KodiState :=
  { connected := false, usingFallback := false, failedAttempts := 0,
    hasFallback := hasFallback, opens := 0, attempts := [] }

/-- Whether a call result is fuel exhaustion. -/
def CallResult.isOutOfFuel : CallResult → Bool
| CallResult.outOfFuel _ => true
| _ => false

/-! ## KodiApi.query: JSON-RPC reply normalization -/

/-- Limits object of a Kodi JSON-RPC result. -/
structure KodiLimits where
  start : Int
  total : Int
deriving DecidableEq, Repr

/-- A value stored under a field of the JSON-RPC result object: an array
of items or a single details object (items abstracted to numbers). -/
inductive KodiValue
| arr (xs : List Nat)
| obj (v : Nat)
deriving DecidableEq, Repr

/-- The result object of a parsed JSON-RPC reply body: its optional
limits object and its named fields. -/
structure KodiResultObj where
  limits : Option KodiLimits
  fields : List (String × KodiValue)
deriving DecidableEq, Repr

/-- A parsed JSON-RPC reply body: either an error object (carrying its
message) or a result object. -/
structure KodiResponseBody where
  error : Option String
  result : KodiResultObj
deriving DecidableEq, Repr

/-- Outcomes of `KodiApi.query`: the raw HTTP response (when no kind is
requested or the raw response is asked for), a thrown error carrying the
device message, an array value, a single wrapped or unwrapped object, or
an undefined result (missing field). -/
inductive QueryOutcome
| rawResponse
| thrown (msg : String)
| arrVal (xs : List Nat)
| objVal (v : Nat)
| wrappedUndefined
| undefinedVal
deriving DecidableEq, Repr

/-- `KodiApi.query` (part_001): when no kind is requested or the raw
response is asked for, the raw HTTP response is returned without parsing
or inspecting the body.  Otherwise the body is parsed: an error object
throws an error with the device message; a limits object with
`start >= total` returns an empty array; otherwise the field
`kind ++ "s"` or, failing that (JavaScript `||` on an undefined lookup),
`kind ++ "details"` is read, a non-array value being wrapped into a
singleton array when `forceArray` is set (an entirely missing field is
returned as is, or wrapped when `forceArray` is set). -/
def kodiQuery (kind : Option String) (returnResponse forceArray : Bool)
    (body : KodiResponseBody) : QueryOutcome :=
  if kind.isNone || returnResponse then QueryOutcome.rawResponse
  else
    match kind with
    | none => QueryOutcome.rawResponse
    | some k =>
      match body.error with
      | some m => QueryOutcome.thrown m
      | none =>
        let limitsEmpty :=
          match body.result.limits with
          | some l => decide (l.total ≤ l.start)
          | none => false
        if limitsEmpty then QueryOutcome.arrVal []
        else
          match (body.result.fields.lookup (k ++ "s")).orElse
              (fun _ => body.result.fields.lookup (k ++ "details")) with
          | some (KodiValue.arr xs) => QueryOutcome.arrVal xs
          | some (KodiValue.obj v) =>
            if forceArray then QueryOutcome.arrVal [v] else QueryOutcome.objVal v
          | none =>
            if forceArray then QueryOutcome.wrappedUndefined else QueryOutcome.undefinedVal

/-! ## Helper lemmas -/

/-- Whether an exceptional computation succeeded. -/
def isOkE {ε α : Type} : Except ε α → Bool
| Except.ok _ => true
| Except.error _ => false

/-- Looking up a session after removing it finds nothing. -/
theorem lookup_removeSession_self (a : String) (l : List (String × SessionData)) :
    (removeSession a l).lookup a = none := by
  induction l with
  | nil => rfl
  | cons p t ih =>
    obtain ⟨k, v⟩ := p
    by_cases h : k = a
    · simp only [removeSession, List.filter_cons] at ih ⊢
      simp only [h, bne_self_eq_false, Bool.false_eq_true, if_false]
      exact ih
    · simp only [removeSession, List.filter_cons] at ih ⊢
      have hb : (k != a) = true := by simpa [bne] using h
      simp only [hb, if_true, List.lookup]
      have hak : (a == k) = false := by simpa using Ne.symm h
      simp only [hak]
      exact ih

/-- Looking up a different session is unaffected by a removal. -/
theorem lookup_removeSession_ne (a b : String) (h : b ≠ a) (l : List (String × SessionData)) :
    (removeSession a l).lookup b = l.lookup b := by
  induction l with
  | nil => rfl
  | cons p t ih =>
    obtain ⟨k, v⟩ := p
    by_cases hk : k = a
    · subst hk
      simp only [removeSession, List.filter_cons, bne_self_eq_false,
        Bool.false_eq_true, if_false] at ih ⊢
      have hbk : (b == k) = false := by simpa using h
      simp only [List.lookup, hbk]
      exact ih
    · simp only [removeSession, List.filter_cons] at ih ⊢
      have hb : (k != a) = true := by simpa [bne] using hk
      simp only [hb, if_true, List.lookup]
      cases hbk : (b == k) with
      | true => rfl
      | false => exact ih

/-- One retry level of `call` on a disconnected state with a fallback
configured and a connection-refused request outcome: the client opens
(resetting the failed-attempt counter), fails the request, toggles the
fallback flag and recurses on the rest of the trace. -/
theorem call_step_refused (fuel : Nat) (st : KodiState) (cmd msg : String)
    (rest : List ReqOutcome) (h1 : st.connected = false) (h2 : st.hasFallback = true) :
    call (fuel + 1) st cmd (ReqOutcome.err "ECONNREFUSED" msg :: rest)
      = call fuel
          { connected := false, usingFallback := !st.usingFallback, failedAttempts := 1,
            hasFallback := true, opens := st.opens + 1,
            attempts := st.attempts ++ [(cmd, st.usingFallback, ReqOutcome.err "ECONNREFUSED" msg)] }
          cmd rest := by
  cases st
  simp only at h1 h2
  subst h1
  subst h2
  rfl

/-- On a fresh disconnected state with a fallback configured, a wire
that refuses every connection makes `call` exhaust any amount of fuel:
each level opens the client (resetting the failed-attempt counter to 0),
fails one request, toggles the fallback flag and recurses. -/
theorem call_refused_exhausts_fuel (cmd msg : String) :
    ∀ (n : Nat) (st : KodiState), st.connected = false → st.hasFallback = true →
      (call n st cmd (List.replicate n (ReqOutcome.err "ECONNREFUSED" msg))).isOutOfFuel = true := by
  intro n
  induction n with
  | zero =>
    intro st h1 h2
    rfl
  | succ n ih =>
    intro st h1 h2
    rw [List.replicate_succ, call_step_refused n st cmd msg _ h1 h2]
    exact ih _ rfl rfl

/-- C10: the MPV receiver connect operation always resolves to true and
invokes the transport open exactly when the connection already reports
connected; when the connection reports not connected, no open attempt is
made. -/
theorem c10_connect_always_true (c : MpvConnectionState) :
    (mpvConnect c).fst = true
    ∧ (mpvConnect c).snd.openCalls = c.openCalls + (if c.connected then 1 else 0) := by
  by_cases h : c.connected <;> simp [mpvConnect, h]

/-- C9 counterexample: the name "address" is not a recognized receiver
operation, yet `callCommand` on it does not fail with the invalid
command error — it attempts to invoke the data property as a function,
which fails with a TypeError. -/
theorem c9_counterexample :
    recognizedOps.contains "address" = false
    ∧ callCommand mpvReceiverObject "address" [] = CommandOutcome.typeErrorNotFunction
    ∧ CommandOutcome.typeErrorNotFunction ≠ CommandOutcome.invalidArgumentError := by
  refine ⟨by decide, by decide, by decide⟩

/-- C9 (amended): `callCommand` fails with the invalid command error
exactly for names that are not properties of the receiver at all; for a
name bound to a method, it dispatches to that method with the given
arguments and returns its result (a name bound to a non-callable
property instead fails with a TypeError). -/
theorem c9_amended (r : ReceiverObject) (name : String) (args : List Nat) :
    (memberOf r name = false → callCommand r name args = CommandOutcome.invalidArgumentError)
    ∧ (∀ f, r.methods.lookup name = some f →
        callCommand r name args = CommandOutcome.ok (f args)) := by
  constructor
  · intro h
    simp [callCommand, h]
  · intro f hf
    have hm : memberOf r name = true := by
      simp [memberOf, hf]
    simp [callCommand, hm, hf]

/-- C9 witness: an entirely unknown name fails with the invalid command
error, and the recognized operation "play" dispatches and returns the
result of the method. -/
theorem c9_witness :
    callCommand mpvReceiverObject "definitelyUnknown" [] = CommandOutcome.invalidArgumentError
    ∧ callCommand mpvReceiverObject "play" [7, 8] = CommandOutcome.ok 2 := by
  refine ⟨(c9_amended mpvReceiverObject "definitelyUnknown" []).1 (by decide), ?_⟩
  exact (c9_amended mpvReceiverObject "play" [7, 8]).2 (fun args => args.length) rfl

/-- C6: over a live connection, a request failing with an error whose
message contains "socket not ready" makes the client close the
connection (one reopen is counted) and transparently retry the exact
same command once; the retried request succeeds and its value is
returned, so the not-ready error is never surfaced. -/
theorem c6_not_ready_retried_once (v : Nat) (cmd : String) :
    call 10
        { connected := true, usingFallback := false, failedAttempts := 0,
          hasFallback := false, opens := 0, attempts := [] }
        cmd
        [ReqOutcome.err "EPIPE" "Error: socket not ready", ReqOutcome.ok v]
      = CallResult.ok v
          { connected := true, usingFallback := false, failedAttempts := 0,
            hasFallback := false, opens := 1,
            attempts := [(cmd, false, ReqOutcome.err "EPIPE" "Error: socket not ready"),
                         (cmd, false, ReqOutcome.ok v)] } := by
  rfl

/-- C5 (code bug): with a fallback configured, a connectivity failure on
the primary followed by a connectivity failure on the fallback does not
raise the error — the client toggles back to the primary and demands a
third request attempt (the failed-attempt counter having been reset to 0
by the intervening successful open); consequently, on a wire refusing
every attempt, the call recursion never terminates: it exhausts every
amount of fuel.  The second half of the claim does hold: a connectivity
failure on the primary followed by success on the fallback completes the
call with the using-fallback flag set and the failed-attempt counter
equal to 0. -/
theorem c5_code_bug_infinite_toggle :
    (call 10 (kodiFresh true) "Player.GetActivePlayers"
        [ReqOutcome.err "ECONNREFUSED" "connect ECONNREFUSED",
         ReqOutcome.err "ECONNREFUSED" "connect ECONNREFUSED"]
      = CallResult.outOfTrace
          { connected := true, usingFallback := false, failedAttempts := 0,
            hasFallback := true, opens := 3,
            attempts :=
              [("Player.GetActivePlayers", false, ReqOutcome.err "ECONNREFUSED" "connect ECONNREFUSED"),
               ("Player.GetActivePlayers", true, ReqOutcome.err "ECONNREFUSED" "connect ECONNREFUSED")] })
    ∧ (∀ n : Nat,
        (call n (kodiFresh true) "Player.GetActivePlayers"
          (List.replicate n (ReqOutcome.err "ECONNREFUSED" "connect ECONNREFUSED"))).isOutOfFuel = true)
    ∧ (∀ (v : Nat) (cmd : String),
        call 10 (kodiFresh true) cmd
            [ReqOutcome.err "ECONNREFUSED" "connect ECONNREFUSED", ReqOutcome.ok v]
          = CallResult.ok v
              { connected := true, usingFallback := true, failedAttempts := 0,
                hasFallback := true, opens := 2,
                attempts := [(cmd, false, ReqOutcome.err "ECONNREFUSED" "connect ECONNREFUSED"),
                             (cmd, true, ReqOutcome.ok v)] }) := by
  refine ⟨by rfl, fun n => call_refused_exhausts_fuel _ _ n _ rfl rfl, fun v cmd => by rfl⟩

/-- C8: for a query that requests a kind without asking for the raw
response, a reply whose result carries limits with start at or past
total is normalized to an empty collection, and a reply carrying an
error object raises an error with the message of the device. -/
theorem c8_limits_empty_and_error (k : String) (fa : Bool) (body : KodiResponseBody) :
    (body.error = none →
      ∀ l, body.result.limits = some l → l.total ≤ l.start →
        kodiQuery (some k) false fa body = QueryOutcome.arrVal [])
    ∧ (∀ m, body.error = some m → kodiQuery (some k) false fa body = QueryOutcome.thrown m) := by
  constructor
  · intro he l hl hge
    simp [kodiQuery, he, hl, hge]
  · intro m hm
    simp [kodiQuery, hm]

/-- C8 witness: a concrete empty result set yields an empty collection,
and a concrete error reply throws with the message of the device. -/
theorem c8_witness :
    kodiQuery (some "movie") false false
        { error := none, result := { limits := some { start := 5, total := 5 }, fields := [] } }
      = QueryOutcome.arrVal []
    ∧ kodiQuery (some "movie") false false
        { error := some "Invalid params", result := { limits := none, fields := [] } }
      = QueryOutcome.thrown "Invalid params" := by
  refine ⟨(c8_limits_empty_and_error "movie" false _).1 rfl _ rfl (by decide), ?_⟩
  exact (c8_limits_empty_and_error "movie" false _).2 "Invalid params" rfl

/-! ## Claims about MpvReceiver -/

/-- A receiver state whose device is unreachable: the transport status
call raises. -/
def c1State : MpvState :=
  { current := none, registry := [],
    device := { reachable := false, playing := none },
    history := [], trace := [] }

/-- C1 counterexample: for a disconnected (unreachable) device, `status`
does not return the canonical stopped snapshot — the transport error
propagates out of it, so `status` is not exception-free. -/
theorem c1_counterexample :
    (statusAct c1State).snd = Except.error StatusErr.transportUnreachable
    ∧ (Except.error StatusErr.transportUnreachable
        ≠ (Except.ok stoppedSnapshot : Except StatusErr ReceiverStatus)) := by
  exact ⟨rfl, fun h => Except.noConfusion h⟩

/-- C1 (amended): when the transport status call succeeds and reports no
playing media, `status` returns the canonical stopped snapshot with null
media fields; but when the transport call itself raises (unreachable or
erroring device) the error propagates to the caller instead of a
snapshot being returned. -/
theorem c1_amended (st : MpvState) :
    (st.device.reachable = true → st.device.playing = none →
      (statusAct st).snd = Except.ok stoppedSnapshot)
    ∧ (st.device.reachable = false →
      (statusAct st).snd = Except.error StatusErr.transportUnreachable) := by
  constructor
  · intro h1 h2
    simp [statusAct, connectionStatus, h1, h2]
  · intro h1
    simp [statusAct, connectionStatus, h1]

/-- C1 witness: the amended statement evaluated at a reachable idle
device and at an unreachable device. -/
theorem c1_witness :
    (statusAct { current := none, registry := [],
                 device := { reachable := true, playing := none },
                 history := [], trace := [] }).snd = Except.ok stoppedSnapshot
    ∧ (statusAct c1State).snd = Except.error StatusErr.transportUnreachable := by
  exact ⟨(c1_amended _).1 rfl rfl, (c1_amended c1State).2 rfl⟩

/-- A receiver state with one session bound whose streams carry no
video. -/
def c4State : MpvState :=
  { current := none,
    registry := [("x", { streams := [MStream.audio], record := 3 })],
    device := { reachable := true, playing := none },
    history := [], trace := [] }

/-- A play oracle whose every effect succeeds. -/
def allOkOracle : PlayOracle :=
  { releaseStopOk := true, playOk := true, emitOk := true, catchReleaseStopOk := true }

/-- C4 counterexample: playing a session with no video-capable stream
fails, but the registry binding of that session is not left untouched —
the error-recovery path releases it. -/
theorem c4_counterexample :
    c4State.registry.lookup "x" = some { streams := [MStream.audio], record := 3 }
    ∧ (play allOkOracle c4State "x").snd = Except.error PlayErr.noVideoStream
    ∧ (play allOkOracle c4State "x").fst.registry.lookup "x" = none := by
  exact ⟨rfl, rfl, rfl⟩

/-- C4 (amended): playing a session that resolves but has no
video-capable stream fails with the unsupported-media error and no
transport play call is attempted (the recorded actions are only the
release of the failing session, which the error-recovery path performs:
the registry binding of that session is removed); the device is
untouched and the current pointer is cleared only when it pointed at
that session. -/
theorem c4_amended (o : PlayOracle) (st : MpvState) (id : String) (data : SessionData)
    (hdata : st.registry.lookup id = some data)
    (hnov : data.streams.find? (fun s => s == MStream.video) = none) :
    (play o st id).snd = Except.error PlayErr.noVideoStream
    ∧ (play o st id).fst.registry.lookup id = none
    ∧ (play o st id).fst.trace
        = st.trace ++ [Action.transportStop id o.catchReleaseStopOk, Action.registryRelease id]
    ∧ (play o st id).fst.device = st.device
    ∧ (play o st id).fst.current = (if st.current = some id then none else st.current) := by
  have hbody : playBody o st id data = (st, some PlayErr.noVideoStream) := by
    simp [playBody, hnov]
  have hrel : sessionsRelease o.catchReleaseStopOk id st
      = { st with registry := removeSession id st.registry,
                  trace := st.trace ++ [Action.transportStop id o.catchReleaseStopOk,
                                        Action.registryRelease id] } := by
    simp [sessionsRelease, hdata]
  simp only [play, hdata, hbody, hrel]
  by_cases hc : st.current = some id
  · simp [hc, lookup_removeSession_self]
  · simp [hc, lookup_removeSession_self]

/-- C4 witness: the amended statement evaluated at the concrete
video-less session of the counterexample state. -/
theorem c4_witness :
    (play allOkOracle c4State "x").snd = Except.error PlayErr.noVideoStream
    ∧ (play allOkOracle c4State "x").fst.registry.lookup "x" = none
    ∧ (play allOkOracle c4State "x").fst.trace
        = c4State.trace ++ [Action.transportStop "x" true, Action.registryRelease "x"]
    ∧ (play allOkOracle c4State "x").fst.device = c4State.device
    ∧ (play allOkOracle c4State "x").fst.current
        = (if c4State.current = some "x" then none else c4State.current) := by
  exact c4_amended allOkOracle c4State "x" _ rfl rfl

/-- C7: after a successful `stop` the bound session has been released
from the registry, the current pointer is cleared, the stop lifecycle
event carrying the affected session id is emitted before the post-stop
transport status query, the returned status is the canonical stopped
snapshot with a null session, and any subsequent status is the stopped
snapshot as well. -/
theorem c7_theorem (o : StopOracle) (st : MpvState) (s : String) (d : SessionData)
    (hr : st.device.reachable = true) (hc : st.current = some s)
    (hd : st.registry.lookup s = some d) (he : o.emitOk = true) :
    (stop o st).snd = Except.ok stoppedSnapshot
    ∧ (stop o st).fst.current = none
    ∧ (stop o st).fst.registry.lookup s = none
    ∧ (stop o st).fst.trace = st.trace ++
        [Action.transportStopCmd, Action.transportStop s o.releaseStopOk,
         Action.registryRelease s, Action.emitEv "stop" (some s), Action.transportStatus]
    ∧ (statusAct (stop o st).fst).snd = Except.ok stoppedSnapshot := by
  simp only [stop, sessionsReleaseOpt, sessionsRelease, statusAct, connectionStatus,
    hr, hc, hd, he, Option.isSome_some, Bool.not_true, Bool.false_eq_true, if_false,
    if_true, lookup_removeSession_self, List.append_assoc, List.cons_append,
    List.nil_append, and_true, true_and]

/-- C7 witness: the theorem evaluated at a concrete reachable state with
one bound current session. -/
theorem c7_witness :
    (stop { releaseStopOk := true, emitOk := true }
        { current := some "s",
          registry := [("s", { streams := [MStream.video], record := 9 })],
          device := { reachable := true, playing := some (startedPlayback "s") },
          history := [], trace := [] }).snd = Except.ok stoppedSnapshot
    ∧ (stop { releaseStopOk := true, emitOk := true }
        { current := some "s",
          registry := [("s", { streams := [MStream.video], record := 9 })],
          device := { reachable := true, playing := some (startedPlayback "s") },
          history := [], trace := [] }).fst.current = none := by
  have h := c7_theorem { releaseStopOk := true, emitOk := true }
    { current := some "s",
      registry := [("s", { streams := [MStream.video], record := 9 })],
      device := { reachable := true, playing := some (startedPlayback "s") },
      history := [], trace := [] } "s" _ rfl rfl rfl rfl
  exact ⟨h.1, h.2.1⟩

/-- A receiver state with a previous current session a and another
bound playable session x. -/
def c2State : MpvState :=
  { current := some "a",
    registry := [("a", { streams := [MStream.video], record := 1 }),
                 ("x", { streams := [MStream.video], record := 2 })],
    device := { reachable := true, playing := some (startedPlayback "a") },
    history := [], trace := [] }

/-- A play oracle under which the transport play succeeds but the play
event listeners throw: the failure happens after the current pointer was
optimistically set to the new session. -/
def c2Oracle : PlayOracle :=
  { releaseStopOk := true, playOk := true, emitOk := false, catchReleaseStopOk := true }

/-- C2 counterexample: the receiver has prior current pointer a; play of
x fails after the pointer was set to x; afterwards the pointer is null,
not restored to its prior value a — the claim that it equals its prior
value again is false at this input (the error is re-raised and x is
released, but the pointer restoration part fails). -/
theorem c2_counterexample :
    c2State.current = some "a"
    ∧ (play c2Oracle c2State "x").snd = Except.error PlayErr.emitFailed
    ∧ (play c2Oracle c2State "x").fst.current = none
    ∧ (play c2Oracle c2State "x").fst.current ≠ c2State.current := by
  refine ⟨rfl, rfl, rfl, ?_⟩
  intro h
  exact Option.noConfusion h

/-- C2 (amended): if `play` of session x fails after the current pointer
was optimistically set to x (the transport play succeeded and the play
event listeners then threw), the error is re-raised, x is released from
the registry, and the current pointer is cleared to null — which equals
its prior value only when that prior value was null; a non-null previous
session id is not restored (it was already released earlier in the same
call). -/
theorem c2_amended (o : PlayOracle) (st : MpvState) (id : String) (data : SessionData)
    (hdata : st.registry.lookup id = some data)
    (hvid : (data.streams.find? (fun s => s == MStream.video)).isSome = true)
    (hplay : o.playOk = true) (hemit : o.emitOk = false) :
    (play o st id).snd = Except.error PlayErr.emitFailed
    ∧ (play o st id).fst.current = none
    ∧ (play o st id).fst.registry.lookup id = none := by
  obtain ⟨v, hv⟩ := Option.isSome_iff_exists.mp hvid
  have hb : (playBody o st id data).snd = some PlayErr.emitFailed
      ∧ (playBody o st id data).fst.current = some id
      ∧ (playBody o st id data).fst.registry.lookup id = some data := by
    rcases hcur : st.current with _ | c
    · simp only [playBody, hv, Option.isNone_some, Bool.false_eq_true, if_false, hcur,
        bne_self_eq_false, Bool.false_and, hplay, Bool.not_true, hemit, Bool.not_false,
        if_true]
      exact ⟨trivial, trivial, hdata⟩
    · by_cases hcid : c = id
      · subst hcid
        simp only [playBody, hv, Option.isNone_some, Bool.false_eq_true, if_false, hcur,
          bne_self_eq_false, Bool.and_false, hplay, Bool.not_true, hemit, Bool.not_false,
          if_true]
        exact ⟨trivial, trivial, hdata⟩
      · have hcb : (some c != some id) = true := by
          simp [bne, hcid]
        have hcn : ((some c : Option String) != none) = true := rfl
        by_cases hreg : (st.registry.lookup c).isSome = true
        · simp only [playBody, hv, Option.isNone_some, Bool.false_eq_true, if_false, hcur,
            hcn, hcb, Bool.true_and, Bool.and_self, hplay, Bool.not_true, hemit,
            Bool.not_false, if_true, sessionsReleaseOpt, sessionsRelease, hreg]
          exact ⟨trivial, trivial,
            (lookup_removeSession_ne c id (fun hh => hcid hh.symm) st.registry).trans hdata⟩
        · simp only [playBody, hv, Option.isNone_some, Bool.false_eq_true, if_false, hcur,
            hcn, hcb, Bool.true_and, Bool.and_self, hplay, Bool.not_true, hemit,
            Bool.not_false, if_true, sessionsReleaseOpt, sessionsRelease, hreg]
          exact ⟨trivial, trivial, hdata⟩
  obtain ⟨hb1, hb2, hb3⟩ := hb
  rcases hres : playBody o st id data with ⟨st1, e1⟩
  rw [hres] at hb1 hb2 hb3
  simp only at hb1 hb2 hb3
  subst hb1
  simp only [play, hdata, hres, sessionsRelease, hb3, Option.isSome_some, if_true, hb2,
    beq_self_eq_true, lookup_removeSession_self, and_true, true_and]
/-- C2 witness: the amended statement evaluated at the concrete state of
the counterexample. -/
theorem c2_witness :
    (play c2Oracle c2State "x").snd = Except.error PlayErr.emitFailed
    ∧ (play c2Oracle c2State "x").fst.current = none
    ∧ (play c2Oracle c2State "x").fst.registry.lookup "x" = none :=
  c2_amended c2Oracle c2State "x" { streams := [MStream.video], record := 2 } rfl rfl rfl rfl

/-- C3: for every two distinct session ids a and b both resolving to
video-capable sessions, a successful play of a followed by a play of b
releases a from the registry exactly once, with the transport-level stop
of a attempted immediately before the registry release and with the play
of b succeeding and leaving b as the current session regardless of the
outcome of the stop of a (the oracle flag rOk is universally
quantified). -/
theorem c3_theorem (a b : String) (da db : SessionData) (rOk cOk : Bool)
    (hab : a ≠ b)
    (hva : (da.streams.find? (fun s => s == MStream.video)).isSome = true)
    (hvb : (db.streams.find? (fun s => s == MStream.video)).isSome = true) :
    isOkE (play (PlayOracle.mk true true true true)
        { current := none, registry := [(a, da), (b, db)],
          device := { reachable := true, playing := none },
          history := [], trace := [] } a).snd = true
    ∧ (play (PlayOracle.mk true true true true)
        { current := none, registry := [(a, da), (b, db)],
          device := { reachable := true, playing := none },
          history := [], trace := [] } a).fst.current = some a
    ∧ isOkE (play (PlayOracle.mk rOk true true cOk)
        ((play (PlayOracle.mk true true true true)
          { current := none, registry := [(a, da), (b, db)],
            device := { reachable := true, playing := none },
            history := [], trace := [] } a).fst) b).snd = true
    ∧ (play (PlayOracle.mk rOk true true cOk)
        ((play (PlayOracle.mk true true true true)
          { current := none, registry := [(a, da), (b, db)],
            device := { reachable := true, playing := none },
            history := [], trace := [] } a).fst) b).fst.current = some b
    ∧ (play (PlayOracle.mk rOk true true cOk)
        ((play (PlayOracle.mk true true true true)
          { current := none, registry := [(a, da), (b, db)],
            device := { reachable := true, playing := none },
            history := [], trace := [] } a).fst) b).fst.trace
        = [Action.transportPlay a, Action.emitEv "play" (some a), Action.transportStatus,
           Action.transportStop a rOk, Action.registryRelease a,
           Action.transportPlay b, Action.emitEv "play" (some b), Action.transportStatus]
    ∧ ((play (PlayOracle.mk rOk true true cOk)
        ((play (PlayOracle.mk true true true true)
          { current := none, registry := [(a, da), (b, db)],
            device := { reachable := true, playing := none },
            history := [], trace := [] } a).fst) b).fst.trace.count
        (Action.registryRelease a)) = 1 := by
  obtain ⟨va, hva'⟩ := Option.isSome_iff_exists.mp hva
  obtain ⟨vb, hvb'⟩ := Option.isSome_iff_exists.mp hvb
  have hba : (b == a) = false := by
    simpa using Ne.symm hab
  have hdist : ((some a : Option String) != some b) = true := by
    simp [bne, hab]
  have hbna : (b != a) = true := by
    simp [bne, hba]
  have h1 : play (PlayOracle.mk true true true true)
      { current := none, registry := [(a, da), (b, db)],
        device := { reachable := true, playing := none },
        history := [], trace := [] } a
      = ({ current := some a, registry := [(a, da), (b, db)],
           device := { reachable := true, playing := some (startedPlayback a) },
           history := [],
           trace := [Action.transportPlay a, Action.emitEv "play" (some a),
                     Action.transportStatus] },
         Except.ok
           { state := RState.playing,
             media := { time := { duration := 0, current := 0, speed := 1 },
                        record := some da.record, session := none },
             volume := { level := 100, muted := false },
             subtitlesStyle := some 1 }) := by
    simp [play, playBody, statusAct, connectionStatus, startedPlayback,
      List.lookup, hva', bne_self_eq_false]
  have h2 : play (PlayOracle.mk rOk true true cOk)
      { current := some a, registry := [(a, da), (b, db)],
        device := { reachable := true, playing := some (startedPlayback a) },
        history := [],
        trace := [Action.transportPlay a, Action.emitEv "play" (some a),
                  Action.transportStatus] } b
      = ({ current := some b, registry := [(b, db)],
           device := { reachable := true, playing := some (startedPlayback b) },
           history := [],
           trace := [Action.transportPlay a, Action.emitEv "play" (some a),
                     Action.transportStatus,
                     Action.transportStop a rOk, Action.registryRelease a,
                     Action.transportPlay b, Action.emitEv "play" (some b),
                     Action.transportStatus] },
         Except.ok
           { state := RState.playing,
             media := { time := { duration := 0, current := 0, speed := 1 },
                        record := some db.record, session := none },
             volume := { level := 100, muted := false },
             subtitlesStyle := some 1 }) := by
    simp [play, playBody, statusAct, connectionStatus, startedPlayback,
      sessionsReleaseOpt, sessionsRelease, removeSession, List.lookup, List.filter,
      hvb', hba, hbna, hdist, bne_self_eq_false, beq_self_eq_true, hab]
  rw [h1]
  rw [h2]
  refine ⟨rfl, rfl, rfl, rfl, rfl, ?_⟩
  simp [List.count_cons, hab]

/-- C3 witness: the theorem evaluated at two concrete distinct sessions,
for a failing transport-level stop of the displaced session. -/
theorem c3_witness :
    isOkE (play (PlayOracle.mk false true true true)
        ((play (PlayOracle.mk true true true true)
          { current := none,
            registry := [("a", { streams := [MStream.video], record := 1 }),
                         ("b", { streams := [MStream.video], record := 2 })],
            device := { reachable := true, playing := none },
            history := [], trace := [] } "a").fst) "b").snd = true
    ∧ (play (PlayOracle.mk false true true true)
        ((play (PlayOracle.mk true true true true)
          { current := none,
            registry := [("a", { streams := [MStream.video], record := 1 }),
                         ("b", { streams := [MStream.video], record := 2 })],
            device := { reachable := true, playing := none },
            history := [], trace := [] } "a").fst) "b").fst.current = some "b"
    ∧ ((play (PlayOracle.mk false true true true)
        ((play (PlayOracle.mk true true true true)
          { current := none,
            registry := [("a", { streams := [MStream.video], record := 1 }),
                         ("b", { streams := [MStream.video], record := 2 })],
            device := { reachable := true, playing := none },
            history := [], trace := [] } "a").fst) "b").fst.trace.count
        (Action.registryRelease "a")) = 1 := by
  have h := c3_theorem "a" "b" { streams := [MStream.video], record := 1 }
    { streams := [MStream.video], record := 2 } false true (by decide) rfl rfl
  exact ⟨h.2.2.1, h.2.2.2.1, h.2.2.2.2.2⟩

end Unicast
